import Mathlib

/-!
Shallow embedding of `playwright-angularjs-extensions`.

The current source is `src/unnamed/part_001` (polling resolver
`getByNgModelValue`, `$eval`-based reader `getNgModelValue`, polling matcher
`toHaveNgValue`, prototype-patching `installAngularjsExtensions`).  The file
`src/playwright-angularjs-extensions.ts` additionally contains a legacy
reader (its lines 216-254) that evaluates the model path by dotted-path
traversal instead of `$eval`; it is embedded as `getNgModelValueLegacy`.

Time is idealized: an invocation starts at instant `0`; all work inside one
poll tick is instantaneous; a sleep of `pollInterval` advances the clock by
exactly `pollInterval`.  The deadline is `Int`-valued because the matcher's
caller-supplied `timeout` is an arbitrary JavaScript number and may be
negative.  The external world (DOM plus AngularJS scopes) is an oracle
`Nat → _` giving, at each instant, the elements the queried locator resolves
to.
-/

/-- JSON-shaped JavaScript values, plus the explicit absence marker
`undefined`.  Mappings keep their key insertion order, as JavaScript objects
do.  Numbers are modelled as integers. -/
inductive JsValue where
  | undefinedV : JsValue
  | null : JsValue
  | bool (b : Bool) : JsValue
  | num (n : Int) : JsValue
  | str (s : String) : JsValue
  | arr (xs : List JsValue) : JsValue
  | obj (fields : List (String × JsValue)) : JsValue

/-- The JavaScript test `value === undefined` (also `typeof value ===
'undefined'`). -/
def JsValue.isUndefinedJs : JsValue → Bool
  | .undefinedV => true
  | _ => false

/-- JSON escaping of one character, as `JSON.stringify` performs on the
characters appearing in this development. -/
def escChar (c : Char) : String :=
  if c = '\"' then "\\\""
  else if c = '\\' then "\\\\"
  else if c = '\n' then "\\n"
  else if c = '\t' then "\\t"
  else if c = '\r' then "\\r"
  else String.singleton c

/-- A JSON string literal: quoted, with escaped content. -/
def quoteStr (s : String) : String :=
  "\"" ++ String.join (s.toList.map escChar) ++ "\""

mutual

/-- `JSON.stringify`: returns `none` exactly when JavaScript returns
`undefined` (here: on the input `undefined`). -/
def stringifyV : JsValue → Option String
  | .undefinedV => none
  | .null => some "null"
  | .bool b => some (cond b "true" "false")
  | .num n => some (toString n)
  | .str s => some (quoteStr s)
  | .arr xs => some ("[" ++ stringifyArr xs ++ "]")
  | .obj fs => some ("\x7b" ++ stringifyFields fs ++ "\x7d")

/-- Array elements, comma separated; an element serializing to `undefined`
is rendered as `null`, as `JSON.stringify` does. -/
def stringifyArr : List JsValue → String
  | [] => ""
  | [v] => (stringifyV v).getD "null"
  | v :: w :: rest => (stringifyV v).getD "null" ++ "," ++ stringifyArr (w :: rest)

/-- Object fields, comma separated, in insertion order; a field whose value
serializes to `undefined` is skipped, as `JSON.stringify` does. -/
def stringifyFields : List (String × JsValue) → String
  | [] => ""
  | (k, v) :: rest =>
    match stringifyV v with
    | none => stringifyFields rest
    | some s =>
      let entry := quoteStr k ++ ":" ++ s
      let tail := stringifyFields rest
      if tail = "" then entry else entry ++ "," ++ tail

end

/-- The equality shared by resolver and assertion:
`JSON.stringify(a) === JSON.stringify(b)`.  When both serializations are
`undefined` the JavaScript comparison is `undefined === undefined`, i.e.
true, which `Option` equality reproduces. -/
def jsonEq (a b : JsValue) : Bool :=
  stringifyV a == stringifyV b

/-- String interpolation of `JSON.stringify(v)`: the template literal
renders the value `undefined` as the text `undefined`. -/
def showJson (v : JsValue) : String :=
  (stringifyV v).getD "undefined"

/-- An AngularJS scope attached to an element.  `evalFn` is present when the
scope exposes a native expression evaluator (`typeof scope.$eval ===
'function'`); applying it may throw (`Except.error` carries the thrown
message).  `data` is the scope's own property graph, used by the legacy
reader's dotted-path traversal. -/
structure Scope where
  evalFn : Option (String → Except String JsValue)
  data : JsValue

/-- One element as observed by a tick of a poll loop.
`attr` is its `ng-model` attribute; `angularLoaded` says whether
`window.angular` is present; `scope` is `angular.element(el).scope()`;
`id` is the element's pre-existing unique identifier (JavaScript's falsy
empty id is `none`); `evalThrows` makes the host `evaluate` call carrying
the scope read reject with the given message; `markThrows` makes the second
`evaluate` call (the one deriving the unique selector) reject. -/
structure Elem where
  attr : Option String
  angularLoaded : Bool
  scope : Option Scope
  id : Option String
  evalThrows : Option String
  markThrows : Bool

/-- JavaScript property access `v[key]` as used by the legacy traversal:
on an object, the named field (or `undefined` when absent); on `null` or
`undefined` it throws a `TypeError`; on other primitives it yields
`undefined`. -/
def jsProp (v : JsValue) (key : String) : Except Unit JsValue :=
  match v with
  | .obj fs =>
    match fs.lookup key with
    | some x => .ok x
    | none => .ok .undefinedV
  | .null => .error ()
  | .undefinedV => .error ()
  | _ => .ok .undefinedV

/-- `ngModel.split('.')` over characters: JavaScript single-character string
split. -/
def splitPath (s : String) : List String :=
  (s.toList.splitOn '.').map fun cs => String.mk cs

/-- The legacy reader's loop `for (const key of path) { value = value[key];
if (value === undefined) return undefined; }` starting from `value`. -/
def traversePath : JsValue → List String → Except Unit JsValue
  | v, [] => .ok v
  | v, k :: ks =>
    match jsProp v k with
    | .error e => .error e
    | .ok next => if next.isUndefinedJs then .ok .undefinedV else traversePath next ks

/-- `getNgModelValue` of the current source (`src/unnamed/part_001` lines
55-79): reads the attribute, requires `window.angular`, requires a scope
exposing `$eval`, evaluates the path via `$eval` and wraps a thrown
evaluation error.  The argument is the first element the locator resolves
to (`locator.first()`), `none` when there is none, in which case the host
`evaluate` call fails with a timeout error. -/
def getNgModelValue (oe : Option Elem) : Except String JsValue :=
  match oe with
  | none => .error "Timeout waiting for element"
  | some e =>
    match e.evalThrows with
    | some m => .error m
    | none =>
      match e.attr with
      | none => .error "Element does not have ng-model attribute"
      | some ngModel =>
        if e.angularLoaded then
          match e.scope with
          | none => .error "Could not find AngularJS scope for element"
          | some s =>
            match s.evalFn with
            | none => .error "Could not find AngularJS scope for element"
            | some f =>
              match f ngModel with
              | .ok v => .ok v
              | .error err =>
                .error ("Failed to evaluate ng-model \"" ++ ngModel
                  ++ "\" via $eval: " ++ err)
        else .error "AngularJS is not loaded on the page"

/-- The legacy reader (`src/playwright-angularjs-extensions.ts` lines
216-254): same attribute/framework/scope checks (without the `$eval`
check), then dotted-path traversal of the scope's property graph,
short-circuiting to `undefined`; an exception thrown by the traversal
(property access on `null`/`undefined`) is wrapped into an error. -/
def getNgModelValueLegacy (oe : Option Elem) : Except String JsValue :=
  match oe with
  | none => .error "Timeout waiting for element"
  | some e =>
    match e.evalThrows with
    | some m => .error m
    | none =>
      match e.attr with
      | none => .error "Element does not have ng-model attribute"
      | some ngModel =>
        if e.angularLoaded then
          match e.scope with
          | none => .error "Could not find AngularJS scope for element"
          | some s =>
            match traversePath s.data (splitPath ngModel) with
            | .ok v => .ok v
            | .error _ =>
              .error ("Failed to evaluate ng-model \"" ++ ngModel ++ "\"")
        else .error "AngularJS is not loaded on the page"

/-- The evaluation discipline claimed for the reader: prefer the scope's
native expression evaluator when the scope exposes one, otherwise fall back
to dotted-path traversal (this definition follows the specification's
words, for comparison with the readers embedded from the source). -/
def specScopeEval (s : Scope) (path : String) : Except String JsValue :=
  match s.evalFn with
  | some f => f path
  | none =>
    match traversePath s.data (splitPath path) with
    | .ok v => .ok v
    | .error _ => .error ("Failed to evaluate ng-model \"" ++ path ++ "\"")

/-- The in-page function of the resolver's first `evaluate` call
(`src/unnamed/part_001` lines 108-123): every failure mode (missing
attribute, framework absent, scope or `$eval` unavailable, `$eval` threw)
yields `undefined` instead of throwing. -/
def inlineScopeRead (e : Elem) : JsValue :=
  match e.attr with
  | none => .undefinedV
  | some a =>
    if e.angularLoaded then
      match e.scope with
      | none => .undefinedV
      | some s =>
        match s.evalFn with
        | none => .undefinedV
        | some f =>
          match f a with
          | .ok v => v
          | .error _ => .undefinedV
    else .undefinedV

/-- `await handles[i].evaluate(...)` for the scope read: rejects exactly
when the host call fails, otherwise returns `inlineScopeRead`. -/
def readCandidateValue (e : Elem) : Except String JsValue :=
  match e.evalThrows with
  | some m => .error m
  | none => .ok (inlineScopeRead e)

/-- Whether a candidate's evaluated value Equality-matches the target:
the kept set of a tick in the specification's terms. -/
def candidateMatches (value : JsValue) (e : Elem) : Bool :=
  match readCandidateValue e with
  | .ok v => jsonEq v value
  | .error _ => false

/-- One candidate's contribution to a tick of the resolver at instant `t`,
position `i`: `none` when the scope read rejects, the value does not match,
or the selector-deriving `evaluate` rejects; otherwise the stable selector
(`#id`, or the synthesized marker attribute unique per position and
instant). -/
def candidateSelector (value : JsValue) (t i : Nat) (e : Elem) : Option String :=
  match readCandidateValue e with
  | .error _ => none
  | .ok actual =>
    if jsonEq actual value then
      if e.markThrows then none
      else
        match e.id with
        | some s => some ("#" ++ s)
        | none =>
          some ("[data-pw-ng-temp=\"pw-ng-temp-" ++ toString i ++ "-"
            ++ toString t ++ "\"]")
    else none

/-- The matching selectors collected by one tick of the resolver's `for`
loop over all candidates, in order. -/
def tickSelectors (value : JsValue) (t : Nat) (elems : List Elem) : List String :=
  elems.enum.filterMap fun p => candidateSelector value t p.1 p.2

/-- The sentinel selector returned on resolver timeout; no real element
carries the attribute. -/
def noMatchSelector : String :=
  "[data-pw-ng-no-match=\"true\"]"

/-- Result of one resolver invocation: the selector the returned locator is
built from (scoped to `root` by `root.locator(...)`), the instant at which
the call returns, and the number of poll ticks whose evaluation work ran. -/
structure ResolveRun where
  selector : String
  finish : Nat
  attempts : Nat

/-- The `while (Date.now() <= deadline)` loop of `getByNgModelValue`
(`src/unnamed/part_001` lines 101-152): at instant `t`, re-query the
candidates, collect matching selectors; if any, return their `", "`-join at
once; otherwise sleep 100 ms and retry; once the guard fails, return the
sentinel selector. -/
def getByNgModelValueLoop (env : Nat → List Elem) (value : JsValue)
    (deadline : Int) (t : Nat) (attempts : Nat) : ResolveRun :=
  if h : (t : Int) ≤ deadline then
    let sels := tickSelectors value t (env t)
    if sels.isEmpty then
      getByNgModelValueLoop env value deadline (t + 100) (attempts + 1)
    else
      ⟨String.intercalate ", " sels, t, attempts + 1⟩
  else
    ⟨noMatchSelector, t, attempts⟩
termination_by (deadline + 1 - (t : Int)).toNat
decreasing_by
  omega

/-- `getByNgModelValue`: timeout 5000 ms and poll interval 100 ms are
hard-coded; polling starts at instant 0, so the deadline is 5000. -/
def getByNgModelValue (env : Nat → List Elem) (value : JsValue) : ResolveRun :=
  getByNgModelValueLoop env value 5000 0 0

/-- Matcher outcome: `pass`, the produced message, the assertion name and
the `expected`/`actual` fields of the returned object. -/
structure Outcome where
  pass : Bool
  message : String
  name : String
  expected : JsValue
  actual : JsValue

/-- What one tick of the matcher observes: the elements the fixed locator
currently resolves to, and whether `locator.count()` itself rejects (with
which message). -/
structure TickState where
  elems : List Elem
  countThrows : Option String

/-- Result of one matcher invocation: the outcome, the instant at which the
call returns, and the number of poll ticks whose evaluation work ran. -/
structure AssertRun where
  outcome : Outcome
  finish : Nat
  attempts : Nat

/-- The strict-mode-violation outcome (`src/unnamed/part_001` lines
180-186). -/
def strictModeOutcome (expected : JsValue) (count : Nat) : Outcome :=
  { pass := false
    message := "Error: strict mode violation: locator resolved to "
      ++ toString count ++ " elements, but expected 1"
    name := "toHaveNgValue"
    expected := expected
    actual := .str ("Found " ++ toString count ++ " elements") }

/-- The passing outcome (`src/unnamed/part_001` lines 194-200). -/
def passOutcome (expected actual : JsValue) : Outcome :=
  { pass := true
    message := "Expected ng-model not to have value: " ++ showJson expected
      ++ "\nReceived: " ++ showJson actual
    name := "toHaveNgValue"
    expected := expected
    actual := actual }

/-- `receivedStr` of the deadline-expiry branch (`src/unnamed/part_001`
line 212): `typeof lastActual === 'undefined'` selects the
`No value (last error: ...)` text, with `lastErrorMessage ?? 'unknown'`. -/
def receivedStr (lastActual : JsValue) (lastError : Option String) : String :=
  if lastActual.isUndefinedJs then
    "No value (last error: " ++ lastError.getD "unknown" ++ ")"
  else showJson lastActual

/-- The deadline-expiry outcome (`src/unnamed/part_001` lines 213-219). -/
def timeoutOutcome (expected lastActual : JsValue) (lastError : Option String) :
    Outcome :=
  { pass := false
    message := "Expected ng-model to have value: " ++ showJson expected
      ++ "\nReceived: " ++ receivedStr lastActual lastError
    name := "toHaveNgValue"
    expected := expected
    actual := lastActual }

/-- The `while (Date.now() <= deadline)` loop of `toHaveNgValue`
(`src/unnamed/part_001` lines 176-219).  Inside the `try`: count the
elements; on count > 1 return the strict-mode failure at once; otherwise
read the first element through `getNgModelValue`; on an Equality match
return the passing outcome at once; on mismatch record the value as
`lastActual`.  Any exception from counting or reading is caught and
recorded as `lastErrorMessage`.  Then sleep 50 ms and retry; once the guard
fails, return the expiry outcome. -/
def toHaveNgValueLoop (env : Nat → TickState) (expected : JsValue)
    (deadline : Int) (t : Nat) (lastActual : JsValue)
    (lastError : Option String) (attempts : Nat) : AssertRun :=
  if _h : (t : Int) ≤ deadline then
    match (env t).countThrows with
    | some m =>
      toHaveNgValueLoop env expected deadline (t + 50) lastActual (some m)
        (attempts + 1)
    | none =>
      let count := (env t).elems.length
      if 1 < count then
        ⟨strictModeOutcome expected count, t, attempts + 1⟩
      else
        match getNgModelValue (env t).elems.head? with
        | .error m =>
          toHaveNgValueLoop env expected deadline (t + 50) lastActual (some m)
            (attempts + 1)
        | .ok actual =>
          if jsonEq actual expected then
            ⟨passOutcome expected actual, t, attempts + 1⟩
          else
            toHaveNgValueLoop env expected deadline (t + 50) actual lastError
              (attempts + 1)
  else
    ⟨timeoutOutcome expected lastActual lastError, t, attempts⟩
termination_by (deadline + 1 - (t : Int)).toNat
decreasing_by
  all_goals omega

/-- `toHaveNgValue` with an explicit timeout (the code's
`options?.timeout ?? 5000`; the poll interval is 50 ms); polling starts at
instant 0, so the deadline equals the timeout. -/
def toHaveNgValue (env : Nat → TickState) (expected : JsValue)
    (timeout : Int) : AssertRun :=
  toHaveNgValueLoop env expected timeout 0 .undefinedV none 0

/-- The shared `Locator` prototype, reduced to the two patched methods.
A method is represented by the identity token of the closure installed
(`none` = absent). -/
structure LocatorProto where
  getByNgModel : Option Nat
  getByNgModelValue : Option Nat

/-- `installAngularjsExtensions`' effect on the shared prototype
(`src/unnamed/part_001` lines 234-248): if `getByNgModel` is already
present, return without touching it; otherwise install both methods as
fresh closures (`fresh` and `fresh + 1` are their identity tokens). -/
def installAngularjsExtensions (fresh : Nat) (p : LocatorProto) : LocatorProto :=
  if p.getByNgModel.isSome then p
  else { getByNgModel := some fresh, getByNgModelValue := some (fresh + 1) }

/-! ## Concrete elements, scopes and tick oracles used by the closed theorems -/

/-- A scope whose native evaluator returns the integer 1 on any path. -/
def scopeOne : Scope :=
  ⟨some fun _ => .ok (.num 1), .obj []⟩

/-- A scope whose native evaluator returns `undefined` on any path. -/
def scopeUndefinedEval : Scope :=
  ⟨some fun _ => .ok .undefinedV, .obj []⟩

/-- A scope exposing no native evaluator, whose property graph holds
`user.name = "x"`. -/
def scopeNoEval : Scope :=
  ⟨none, .obj [("user", .obj [("name", .str "x")])]⟩

/-- A healthy element (id `a`) whose scope read yields the integer 1. -/
def elemOne : Elem :=
  ⟨some "x", true, some scopeOne, some "a", none, false⟩

/-- Like `elemOne` but without a pre-existing id and with a
selector-deriving `evaluate` call that rejects. -/
def elemMarkFail : Elem :=
  ⟨some "x", true, some scopeOne, none, none, true⟩

/-- An element (id `e1`) on a page where AngularJS is absent: its inline
scope read yields `undefined`. -/
def elemNoFramework : Elem :=
  ⟨some "x", false, none, some "e1", none, false⟩

/-- An element whose host `evaluate` call rejects with message `BOOM`. -/
def elemEvalRejects : Elem :=
  ⟨some "x", true, some scopeOne, some "b", some "BOOM", false⟩

/-- An element whose scope read succeeds and yields `undefined`. -/
def elemUndefinedRead : Elem :=
  ⟨some "x", true, some scopeUndefinedEval, none, none, false⟩

/-- An element with model path `user.name` whose scope exposes no native
evaluator. -/
def elemNoEval : Elem :=
  ⟨some "user.name", true, some scopeNoEval, none, none, false⟩

/-- A locator resolving to two elements at every tick. -/
def envTwo : Nat → TickState :=
  fun _ => ⟨[elemOne, elemOne], none⟩

/-- A root under which no element ever carries the attribute. -/
def envEmpty : Nat → List Elem :=
  fun _ => []

/-- A root under which exactly `elemOne` is present at every tick. -/
def envOne : Nat → List Elem :=
  fun _ => [elemOne]

/-- A root under which exactly `elemMarkFail` is present at every tick. -/
def envMarkFail : Nat → List Elem :=
  fun _ => [elemMarkFail]

/-- A root under which exactly `elemNoFramework` is present at every
tick. -/
def envNoFramework : Nat → List Elem :=
  fun _ => [elemNoFramework]

/-- A locator resolving to the healthy `elemOne` at every tick. -/
def envGood : Nat → TickState :=
  fun _ => ⟨[elemOne], none⟩

/-- A locator whose element's read rejects at instant 0 and from then on
reads successfully to `undefined`. -/
def envStaleError : Nat → TickState :=
  fun t => if t = 0 then ⟨[elemEvalRejects], none⟩ else ⟨[elemUndefinedRead], none⟩

/-- A locator whose `count()` call rejects at every tick. -/
def envCountRejects : Nat → TickState :=
  fun _ => ⟨[elemOne], some "Target closed"⟩

/-- A locator whose element's read rejects at every tick. -/
def envReadRejects : Nat → TickState :=
  fun _ => ⟨[elemEvalRejects], none⟩

/-! ## Step equations for the two poll loops -/

/-- Expired guard: the matcher loop returns the expiry outcome at once. -/
theorem toHaveNgValueLoop_expired (env : Nat → TickState) (expected : JsValue)
    (d : Int) (t : Nat) (la : JsValue) (le : Option String) (att : Nat)
    (h : ¬ (t : Int) ≤ d) :
    toHaveNgValueLoop env expected d t la le att =
      ⟨timeoutOutcome expected la le, t, att⟩ := by
  conv_lhs => rw [toHaveNgValueLoop.eq_def]
  simp [h]

/-- A rejecting `count()` call is caught and recorded; the loop retries. -/
theorem toHaveNgValueLoop_countThrow (env : Nat → TickState)
    (expected : JsValue) (d : Int) (t : Nat) (la : JsValue)
    (le : Option String) (att : Nat) (m : String)
    (h : (t : Int) ≤ d) (hc : (env t).countThrows = some m) :
    toHaveNgValueLoop env expected d t la le att =
      toHaveNgValueLoop env expected d (t + 50) la (some m) (att + 1) := by
  conv_lhs => rw [toHaveNgValueLoop.eq_def]
  simp [h, hc]

/-- Count above one: the strict-mode failure is returned at once. -/
theorem toHaveNgValueLoop_strict (env : Nat → TickState) (expected : JsValue)
    (d : Int) (t : Nat) (la : JsValue) (le : Option String) (att : Nat)
    (h : (t : Int) ≤ d) (hc : (env t).countThrows = none)
    (hlen : 1 < (env t).elems.length) :
    toHaveNgValueLoop env expected d t la le att =
      ⟨strictModeOutcome expected (env t).elems.length, t, att + 1⟩ := by
  conv_lhs => rw [toHaveNgValueLoop.eq_def]
  simp [h, hc, hlen]

/-- A rejecting read is caught and recorded; the loop retries. -/
theorem toHaveNgValueLoop_readError (env : Nat → TickState)
    (expected : JsValue) (d : Int) (t : Nat) (la : JsValue)
    (le : Option String) (att : Nat) (m : String)
    (h : (t : Int) ≤ d) (hc : (env t).countThrows = none)
    (hlen : ¬ 1 < (env t).elems.length)
    (hr : getNgModelValue (env t).elems.head? = .error m) :
    toHaveNgValueLoop env expected d t la le att =
      toHaveNgValueLoop env expected d (t + 50) la (some m) (att + 1) := by
  conv_lhs => rw [toHaveNgValueLoop.eq_def]
  simp [h, hc, hlen, hr]

/-- A read that Equality-matches: the passing outcome is returned at once. -/
theorem toHaveNgValueLoop_pass (env : Nat → TickState) (expected : JsValue)
    (d : Int) (t : Nat) (la : JsValue) (le : Option String) (att : Nat)
    (a : JsValue) (h : (t : Int) ≤ d) (hc : (env t).countThrows = none)
    (hlen : ¬ 1 < (env t).elems.length)
    (hr : getNgModelValue (env t).elems.head? = .ok a)
    (hj : jsonEq a expected = true) :
    toHaveNgValueLoop env expected d t la le att =
      ⟨passOutcome expected a, t, att + 1⟩ := by
  conv_lhs => rw [toHaveNgValueLoop.eq_def]
  simp [h, hc, hlen, hr, hj]

/-- A read that does not match: the value is recorded as the last observed
one and the loop retries. -/
theorem toHaveNgValueLoop_mismatch (env : Nat → TickState)
    (expected : JsValue) (d : Int) (t : Nat) (la : JsValue)
    (le : Option String) (att : Nat) (a : JsValue)
    (h : (t : Int) ≤ d) (hc : (env t).countThrows = none)
    (hlen : ¬ 1 < (env t).elems.length)
    (hr : getNgModelValue (env t).elems.head? = .ok a)
    (hj : jsonEq a expected = false) :
    toHaveNgValueLoop env expected d t la le att =
      toHaveNgValueLoop env expected d (t + 50) a le (att + 1) := by
  conv_lhs => rw [toHaveNgValueLoop.eq_def]
  simp [h, hc, hlen, hr, hj]

/-- Expired guard: the resolver loop returns the sentinel at once. -/
theorem getByNgModelValueLoop_expired (env : Nat → List Elem)
    (value : JsValue) (d : Int) (t : Nat) (att : Nat)
    (h : ¬ (t : Int) ≤ d) :
    getByNgModelValueLoop env value d t att = ⟨noMatchSelector, t, att⟩ := by
  conv_lhs => rw [getByNgModelValueLoop.eq_def]
  simp [h]

/-- A tick that collected at least one matching selector returns their
`", "`-join at once. -/
theorem getByNgModelValueLoop_hit (env : Nat → List Elem) (value : JsValue)
    (d : Int) (t : Nat) (att : Nat) (h : (t : Int) ≤ d)
    (hne : (tickSelectors value t (env t)).isEmpty = false) :
    getByNgModelValueLoop env value d t att =
      ⟨String.intercalate ", " (tickSelectors value t (env t)), t, att + 1⟩ := by
  conv_lhs => rw [getByNgModelValueLoop.eq_def]
  simp [h, hne]

/-- A tick that collected no selector sleeps 100 ms and retries. -/
theorem getByNgModelValueLoop_miss (env : Nat → List Elem) (value : JsValue)
    (d : Int) (t : Nat) (att : Nat) (h : (t : Int) ≤ d)
    (he : (tickSelectors value t (env t)).isEmpty = true) :
    getByNgModelValueLoop env value d t att =
      getByNgModelValueLoop env value d (t + 100) (att + 1) := by
  conv_lhs => rw [getByNgModelValueLoop.eq_def]
  simp [h, he]

/-! ## Induction facts about the two poll loops -/

/-- When no tick ever collects a selector, the resolver loop returns the
sentinel; starting on or before the deadline it finishes strictly after the
deadline and at most one poll interval past it. -/
theorem getByNgModelValueLoop_no_sels (env : Nat → List Elem)
    (value : JsValue) (d : Int)
    (hm : ∀ t, tickSelectors value t (env t) = []) :
    ∀ t att, (getByNgModelValueLoop env value d t att).selector = noMatchSelector ∧
      ((t : Int) ≤ d → d < ((getByNgModelValueLoop env value d t att).finish : Int) ∧
        ((getByNgModelValueLoop env value d t att).finish : Int) ≤ d + 100) := by
  have key : ∀ n : Nat, ∀ (t att : Nat), (d + 1 - (t : Int)).toNat = n →
      (getByNgModelValueLoop env value d t att).selector = noMatchSelector ∧
      ((t : Int) ≤ d → d < ((getByNgModelValueLoop env value d t att).finish : Int) ∧
        ((getByNgModelValueLoop env value d t att).finish : Int) ≤ d + 100) := by
    intro n
    induction n using Nat.strong_induction_on with
    | _ n ih =>
      intro t att hn
      by_cases h : (t : Int) ≤ d
      · rw [getByNgModelValueLoop_miss env value d t att h (by rw [hm t]; rfl)]
        by_cases h2 : ((t + 100 : Nat) : Int) ≤ d
        · obtain ⟨ih1, ih2⟩ := ih ((d + 1 - ((t + 100 : Nat) : Int)).toNat)
            (by omega) (t + 100) (att + 1) rfl
          exact ⟨ih1, fun _ => ih2 h2⟩
        · rw [getByNgModelValueLoop_expired env value d (t + 100) (att + 1) h2]
          refine ⟨rfl, fun _ => ⟨?_, ?_⟩⟩ <;> push_cast <;> omega
      · rw [getByNgModelValueLoop_expired env value d t att h]
        exact ⟨rfl, fun hh => absurd hh h⟩
  intro t att
  exact key ((d + 1 - (t : Int)).toNat) t att rfl

/-- The resolver loop never decreases its attempt counter. -/
theorem getByNgModelValueLoop_attempts_mono (env : Nat → List Elem)
    (value : JsValue) (d : Int) :
    ∀ t att, att ≤ (getByNgModelValueLoop env value d t att).attempts := by
  have key : ∀ n : Nat, ∀ (t att : Nat), (d + 1 - (t : Int)).toNat = n →
      att ≤ (getByNgModelValueLoop env value d t att).attempts := by
    intro n
    induction n using Nat.strong_induction_on with
    | _ n ih =>
      intro t att hn
      by_cases h : (t : Int) ≤ d
      · by_cases he : (tickSelectors value t (env t)).isEmpty = true
        · rw [getByNgModelValueLoop_miss env value d t att h he]
          exact le_trans (Nat.le_succ att)
            (ih ((d + 1 - ((t + 100 : Nat) : Int)).toNat) (by omega)
              (t + 100) (att + 1) rfl)
        · rw [getByNgModelValueLoop_hit env value d t att h
            (by simpa using he)]
          exact Nat.le_succ att
      · rw [getByNgModelValueLoop_expired env value d t att h]
  intro t att
  exact key ((d + 1 - (t : Int)).toNat) t att rfl

/-- Entering the resolver loop on or before the deadline runs at least one
evaluation attempt. -/
theorem getByNgModelValueLoop_attempts_lt (env : Nat → List Elem)
    (value : JsValue) (d : Int) (t att : Nat) (h : (t : Int) ≤ d) :
    att < (getByNgModelValueLoop env value d t att).attempts := by
  by_cases he : (tickSelectors value t (env t)).isEmpty = true
  · rw [getByNgModelValueLoop_miss env value d t att h he]
    exact lt_of_lt_of_le (Nat.lt_succ_self att)
      (getByNgModelValueLoop_attempts_mono env value d (t + 100) (att + 1))
  · rw [getByNgModelValueLoop_hit env value d t att h (by simpa using he)]
    exact Nat.lt_succ_self att

/-- The matcher loop never decreases its attempt counter. -/
theorem toHaveNgValueLoop_attempts_mono (env : Nat → TickState)
    (expected : JsValue) (d : Int) :
    ∀ t la le att, att ≤ (toHaveNgValueLoop env expected d t la le att).attempts := by
  have key : ∀ n : Nat, ∀ (t : Nat) (la : JsValue) (le : Option String) (att : Nat), (d + 1 - (t : Int)).toNat = n →
      att ≤ (toHaveNgValueLoop env expected d t la le att).attempts := by
    intro n
    induction n using Nat.strong_induction_on with
    | _ n ih =>
      intro t la le att hn
      by_cases h : (t : Int) ≤ d
      · cases hc : (env t).countThrows with
        | some m =>
          rw [toHaveNgValueLoop_countThrow env expected d t la le att m h hc]
          exact le_trans (Nat.le_succ att)
            (ih ((d + 1 - ((t + 50 : Nat) : Int)).toNat) (by omega)
              (t + 50) la (some m) (att + 1) rfl)
        | none =>
          by_cases hlen : 1 < (env t).elems.length
          · rw [toHaveNgValueLoop_strict env expected d t la le att h hc hlen]
            exact Nat.le_succ att
          · cases hr : getNgModelValue (env t).elems.head? with
            | error m =>
              rw [toHaveNgValueLoop_readError env expected d t la le att m h hc
                hlen hr]
              exact le_trans (Nat.le_succ att)
                (ih ((d + 1 - ((t + 50 : Nat) : Int)).toNat) (by omega)
                  (t + 50) la (some m) (att + 1) rfl)
            | ok a =>
              cases hj : jsonEq a expected with
              | true =>
                rw [toHaveNgValueLoop_pass env expected d t la le att a h hc
                  hlen hr hj]
                exact Nat.le_succ att
              | false =>
                rw [toHaveNgValueLoop_mismatch env expected d t la le att a h hc
                  hlen hr hj]
                exact le_trans (Nat.le_succ att)
                  (ih ((d + 1 - ((t + 50 : Nat) : Int)).toNat) (by omega)
                    (t + 50) a le (att + 1) rfl)
      · rw [toHaveNgValueLoop_expired env expected d t la le att h]
  intro t la le att
  exact key ((d + 1 - (t : Int)).toNat) t la le att rfl

/-- Entering the matcher loop on or before the deadline runs at least one
evaluation attempt. -/
theorem toHaveNgValueLoop_attempts_lt (env : Nat → TickState)
    (expected : JsValue) (d : Int) (t : Nat) (la : JsValue)
    (le : Option String) (att : Nat) (h : (t : Int) ≤ d) :
    att < (toHaveNgValueLoop env expected d t la le att).attempts := by
  cases hc : (env t).countThrows with
  | some m =>
    rw [toHaveNgValueLoop_countThrow env expected d t la le att m h hc]
    exact lt_of_lt_of_le (Nat.lt_succ_self att)
      (toHaveNgValueLoop_attempts_mono env expected d (t + 50) la (some m)
        (att + 1))
  | none =>
    by_cases hlen : 1 < (env t).elems.length
    · rw [toHaveNgValueLoop_strict env expected d t la le att h hc hlen]
      exact Nat.lt_succ_self att
    · cases hr : getNgModelValue (env t).elems.head? with
      | error m =>
        rw [toHaveNgValueLoop_readError env expected d t la le att m h hc hlen hr]
        exact lt_of_lt_of_le (Nat.lt_succ_self att)
          (toHaveNgValueLoop_attempts_mono env expected d (t + 50) la (some m)
            (att + 1))
      | ok a =>
        cases hj : jsonEq a expected with
        | true =>
          rw [toHaveNgValueLoop_pass env expected d t la le att a h hc hlen hr hj]
          exact Nat.lt_succ_self att
        | false =>
          rw [toHaveNgValueLoop_mismatch env expected d t la le att a h hc hlen
            hr hj]
          exact lt_of_lt_of_le (Nat.lt_succ_self att)
            (toHaveNgValueLoop_attempts_mono env expected d (t + 50) a le
              (att + 1))

/-- A candidate whose evaluated value does not Equality-match the target
contributes no selector. -/
theorem candidateSelector_of_not_matches {value : JsValue} {e : Elem}
    (h : candidateMatches value e = false) (t i : Nat) :
    candidateSelector value t i e = none := by
  unfold candidateMatches at h
  cases hr : readCandidateValue e with
  | error m => simp [candidateSelector, hr]
  | ok a =>
    rw [hr] at h
    simp only [] at h
    simp [candidateSelector, hr, h]

/-- A tick all of whose candidates fail to match collects no selector. -/
theorem tickSelectors_eq_nil {value : JsValue} {elems : List Elem}
    (h : ∀ e ∈ elems, candidateMatches value e = false) (t : Nat) :
    tickSelectors value t elems = [] := by
  unfold tickSelectors
  rw [List.filterMap_eq_nil_iff]
  intro p hp
  have hmem : p.2 ∈ elems := by
    obtain ⟨i, a⟩ := p
    rw [List.mk_mem_enum_iff_getElem?] at hp
    exact List.getElem?_mem hp
  exact candidateSelector_of_not_matches (h p.2 hmem) t p.1

/-! ## C1 -/

/-- C1: at any polled tick within the deadline at which the locator
resolves to more than one element (and counting succeeds), `toHaveNgValue`
returns the failed strict-mode-violation outcome immediately at that tick:
the loop finishes at that very instant, sleeping no further poll interval
and not waiting out the remaining timeout budget. -/
theorem toHaveNgValue_strict_mode_immediate (env : Nat → TickState)
    (expected : JsValue) (d : Int) (t : Nat) (la : JsValue)
    (le : Option String) (att : Nat) (h : (t : Int) ≤ d)
    (hc : (env t).countThrows = none) (hlen : 1 < (env t).elems.length) :
    toHaveNgValueLoop env expected d t la le att =
      ⟨strictModeOutcome expected (env t).elems.length, t, att + 1⟩ ∧
    (strictModeOutcome expected (env t).elems.length).pass = false :=
  ⟨toHaveNgValueLoop_strict env expected d t la le att h hc hlen, rfl⟩

/-- Witness for C1: a locator resolving to two elements at instant 0. -/
theorem toHaveNgValue_strict_mode_immediate_witness :
    toHaveNgValueLoop envTwo (.num 1) 5000 0 .undefinedV none 0 =
      ⟨strictModeOutcome (.num 1) 2, 0, 1⟩ ∧
    (strictModeOutcome (.num 1) 2).pass = false :=
  toHaveNgValue_strict_mode_immediate envTwo (.num 1) 5000 0 .undefinedV none 0
    (by decide) rfl (by decide)

/-! ## C2 -/

/-- C2: when no candidate Equality-matches the target value at any polled
tick, the resolver returns normally (its embedding is a total function)
with the sentinel selector `[data-pw-ng-no-match="true"]`. -/
theorem getByNgModelValue_timeout_sentinel (env : Nat → List Elem)
    (value : JsValue)
    (hm : ∀ t, ∀ e ∈ env t, candidateMatches value e = false) :
    (getByNgModelValue env value).selector = noMatchSelector :=
  (getByNgModelValueLoop_no_sels env value 5000
    (fun t => tickSelectors_eq_nil (hm t) t) 0 0).1

/-- Witness for C2: a root under which no element ever carries the
attribute. -/
theorem getByNgModelValue_timeout_sentinel_witness :
    (getByNgModelValue envEmpty (.num 1)).selector = noMatchSelector :=
  getByNgModelValue_timeout_sentinel envEmpty (.num 1)
    (fun _ e he => absurd he (List.not_mem_nil e))

/-! ## C3 -/

/-- C3 counterexample: an element whose model-path attribute is present and
whose scope is obtainable but exposes no native evaluator, while its
property graph resolves the dotted path to `"x"`: the current reader fails
with the scope-unavailable error instead of falling back to traversal (the
specification-following `specScopeEval` would produce `"x"`). -/
theorem reader_no_traversal_fallback_cx :
    getNgModelValue (some elemNoEval) =
      .error "Could not find AngularJS scope for element" ∧
    specScopeEval scopeNoEval "user.name" = .ok (.str "x") ∧
    traversePath scopeNoEval.data (splitPath "user.name") = .ok (.str "x") :=
  ⟨rfl, rfl, rfl⟩

/-- C3 (amended): the current reader evaluates exclusively via the scope's
native evaluator — when the scope exposes one it is used, and when it does
not the reader fails with the scope-unavailable error rather than
traversing; the dotted-path traversal (short-circuiting to `undefined` as
soon as an intermediate segment is absent) is performed only by the legacy
reader, which never consults a native evaluator. -/
theorem reader_eval_discipline :
    (∀ (e : Elem) (p : String) (s : Scope)
       (f : String → Except String JsValue) (v : JsValue),
       e.evalThrows = none → e.attr = some p → e.angularLoaded = true →
       e.scope = some s → s.evalFn = some f → f p = .ok v →
       getNgModelValue (some e) = .ok v)
  ∧ (∀ (e : Elem) (p : String) (s : Scope),
       e.evalThrows = none → e.attr = some p → e.angularLoaded = true →
       e.scope = some s → s.evalFn = none →
       getNgModelValue (some e) =
         .error "Could not find AngularJS scope for element")
  ∧ (∀ (e : Elem) (p : String) (s : Scope),
       e.evalThrows = none → e.attr = some p → e.angularLoaded = true →
       e.scope = some s →
       getNgModelValueLegacy (some e) =
         match traversePath s.data (splitPath p) with
         | .ok v => .ok v
         | .error _ =>
           .error ("Failed to evaluate ng-model \"" ++ p ++ "\""))
  ∧ (∀ (v : JsValue) (k : String) (ks : List String),
       jsProp v k = .ok .undefinedV → traversePath v (k :: ks) = .ok .undefinedV) := by
  refine ⟨?_, ?_, ?_, ?_⟩
  · intro e p s f v h1 h2 h3 h4 h5 h6
    simp [getNgModelValue, h1, h2, h3, h4, h5, h6]
  · intro e p s h1 h2 h3 h4 h5
    simp [getNgModelValue, h1, h2, h3, h4, h5]
  · intro e p s h1 h2 h3 h4
    simp [getNgModelValueLegacy, h1, h2, h3, h4]
  · intro v k ks h
    simp [traversePath, h, JsValue.isUndefinedJs]

/-- Witness for C3 (amended), covering all four conjuncts on concrete
elements and scopes. -/
theorem reader_eval_discipline_witness :
    getNgModelValue (some elemOne) = .ok (.num 1) ∧
    getNgModelValue (some elemNoEval) =
      .error "Could not find AngularJS scope for element" ∧
    getNgModelValueLegacy (some elemNoEval) = .ok (.str "x") ∧
    traversePath (.obj [("a", .undefinedV)]) ["a", "b"] = .ok .undefinedV :=
  ⟨reader_eval_discipline.1 elemOne "x" scopeOne _ (.num 1)
     rfl rfl rfl rfl rfl rfl,
   reader_eval_discipline.2.1 elemNoEval "user.name" scopeNoEval
     rfl rfl rfl rfl rfl,
   reader_eval_discipline.2.2.1 elemNoEval "user.name" scopeNoEval
     rfl rfl rfl rfl,
   reader_eval_discipline.2.2.2 (.obj [("a", .undefinedV)]) "a" ["b"] rfl⟩

/-! ## C4 -/

/-- C4 counterexample: with target value `undefined`, a candidate whose
scope read fails (here: the framework is absent, so the inline read yields
`undefined`) is treated as MATCHING, not as non-matching: the resolver
returns its selector at the very first tick. -/
theorem resolver_failure_matches_undefined_cx :
    inlineScopeRead elemNoFramework = .undefinedV ∧
    elemNoFramework.angularLoaded = false ∧
    candidateSelector .undefinedV 0 0 elemNoFramework = some "#e1" ∧
    getByNgModelValue envNoFramework .undefinedV = ⟨"#e1", 0, 1⟩ := by
  refine ⟨rfl, rfl, rfl, ?_⟩
  show getByNgModelValueLoop envNoFramework .undefinedV 5000 0 0 = _
  rw [getByNgModelValueLoop_hit envNoFramework .undefinedV 5000 0 0 (by decide) rfl]
  rfl

/-- C4 (amended): a rejecting host `evaluate` call makes the candidate a
non-match; an in-page read failure makes the candidate evaluate to
`undefined`, which is a non-match for every target with a defined
serialization (but matches the target `undefined`); failures never abort
the tick: every candidate of the tick is processed independently, so a
later candidate's selector is collected regardless of earlier failures. -/
theorem resolver_candidate_failure_isolation :
    (∀ (value : JsValue) (t i : Nat) (e : Elem) (m : String),
       e.evalThrows = some m → candidateSelector value t i e = none)
  ∧ (∀ (value : JsValue) (t i : Nat) (e : Elem),
       e.evalThrows = none → inlineScopeRead e = .undefinedV →
       stringifyV value ≠ none → candidateSelector value t i e = none)
  ∧ (∀ (value : JsValue) (t j : Nat) (elems : List Elem)
       (hj : j < elems.length) (s : String),
       candidateSelector value t j (elems.get ⟨j, hj⟩) = some s →
       s ∈ tickSelectors value t elems) := by
  refine ⟨?_, ?_, ?_⟩
  · intro value t i e m h
    simp [candidateSelector, readCandidateValue, h]
  · intro value t i e h1 h2 hv
    cases hsv : stringifyV value with
    | none => exact absurd hsv hv
    | some s =>
      simp [candidateSelector, readCandidateValue, h1, h2, jsonEq,
        stringifyV, hsv]
  · intro value t j elems hj s h
    unfold tickSelectors
    rw [List.mem_filterMap]
    refine ⟨(j, elems.get ⟨j, hj⟩), ?_, h⟩
    rw [List.mk_mem_enum_iff_getElem?]
    simp [List.getElem?_eq_getElem hj]

/-- Witness for C4 (amended): a rejecting candidate and a framework-absent
candidate are non-matches for the target 1, and the healthy second
candidate of a tick whose first candidate rejects still contributes its
selector. -/
theorem resolver_candidate_failure_isolation_witness :
    candidateSelector (.num 1) 0 0 elemEvalRejects = none ∧
    candidateSelector (.num 1) 0 0 elemNoFramework = none ∧
    "#a" ∈ tickSelectors (.num 1) 0 [elemEvalRejects, elemOne] :=
  ⟨resolver_candidate_failure_isolation.1 (.num 1) 0 0 elemEvalRejects
     "BOOM" rfl,
   resolver_candidate_failure_isolation.2.1 (.num 1) 0 0 elemNoFramework
     rfl rfl (by decide),
   resolver_candidate_failure_isolation.2.2 (.num 1) 0 1
     [elemEvalRejects, elemOne] (by decide) "#a" rfl⟩

/-! ## C5 -/

/-- C5 counterexample: at instant 0 the kept (Equality-matching) candidate
set is non-empty, yet because the sole matching candidate's
marker-attaching `evaluate` call rejects, the resolver does not return at
that tick: it keeps polling until the deadline and returns the sentinel. -/
theorem resolver_first_tick_marker_failure_cx :
    candidateMatches (.num 1) elemMarkFail = true ∧
    envMarkFail 0 = [elemMarkFail] ∧
    (getByNgModelValue envMarkFail (.num 1)).selector = noMatchSelector ∧
    5000 < ((getByNgModelValue envMarkFail (.num 1)).finish : Int) := by
  have h := getByNgModelValueLoop_no_sels envMarkFail (.num 1) 5000
    (fun t => rfl) 0 0
  exact ⟨rfl, rfl, h.1, (h.2 (by decide)).1⟩

/-- C5 (amended): at any tick within the deadline at which at least one
Equality-matching candidate also yields a stable-reference selector, the
resolver immediately returns the `", "`-join of the tick's collected
selectors, finishing at that very tick (no further polling for additional
matches). -/
theorem resolver_first_hit_returns (env : Nat → List Elem) (value : JsValue)
    (d : Int) (t att : Nat) (h : (t : Int) ≤ d)
    (hne : (tickSelectors value t (env t)).isEmpty = false) :
    getByNgModelValueLoop env value d t att =
      ⟨String.intercalate ", " (tickSelectors value t (env t)), t, att + 1⟩ :=
  getByNgModelValueLoop_hit env value d t att h hne

/-- Witness for C5 (amended): a single healthy matching candidate at
instant 0. -/
theorem resolver_first_hit_returns_witness :
    getByNgModelValueLoop envOne (.num 1) 5000 0 0 = ⟨"#a", 0, 1⟩ := by
  rw [resolver_first_hit_returns envOne (.num 1) 5000 0 0 (by decide) rfl]
  rfl

/-! ## C6 -/

/-- C6 counterexample: two mappings with the same key-value pairs in
different insertion order (a permutation of one another) are not
Equality-equal. -/
theorem jsonEq_key_order_cx :
    List.Perm [("a", JsValue.num 1), ("b", JsValue.num 2)]
      [("b", JsValue.num 2), ("a", JsValue.num 1)] ∧
    jsonEq (.obj [("a", .num 1), ("b", .num 2)])
      (.obj [("b", .num 2), ("a", .num 1)]) = false :=
  ⟨List.Perm.swap _ _ _, by decide⟩

/-- C6 (amended): Equality is serialized-string comparison: it is true on
every pair of identical values; values with different serializations
compare false; but for mappings the key insertion order affects the
result, so equal key-value sets in different order may compare false. -/
theorem jsonEq_refl_and_order_sensitive :
    (∀ v : JsValue, jsonEq v v = true) ∧
    jsonEq (.obj [("a", .num 1), ("b", .num 2)])
      (.obj [("b", .num 2), ("a", .num 1)]) = false ∧
    jsonEq (.num 1) (.num 2) = false :=
  ⟨fun v => by simp [jsonEq], by decide, by decide⟩

/-! ## C7 -/

/-- C7 counterexample: a negative caller-supplied timeout makes the
deadline elapse before polling begins; the `while` guard then fails at
once and the matcher performs ZERO evaluation attempts — even though the
locator's element was present and would have matched. -/
theorem zero_attempts_when_deadline_preelapsed_cx :
    toHaveNgValue envGood (.num 1) (-1) =
      ⟨timeoutOutcome (.num 1) .undefinedV none, 0, 0⟩ ∧
    getNgModelValue ((envGood 0).elems.head?) = .ok (.num 1) ∧
    jsonEq (.num 1) (.num 1) = true := by
  refine ⟨?_, rfl, by decide⟩
  show toHaveNgValueLoop envGood (.num 1) (-1) 0 .undefinedV none 0 = _
  exact toHaveNgValueLoop_expired envGood (.num 1) (-1) 0 .undefinedV none 0
    (by decide)

/-- C7 (amended): both poll loops stop starting ticks once the deadline has
passed; under idealized timing a never-matching resolver finishes strictly
after its 5000 ms timeout and at most one 100 ms poll interval past it;
each loop performs at least one evaluation attempt whenever the deadline
has not already elapsed when polling begins (with a pre-elapsed deadline
the guard fails at once and zero attempts are made). -/
theorem poll_loop_timing :
    (∀ (env : Nat → List Elem) (value : JsValue) (d : Int) (t att : Nat),
       ¬ (t : Int) ≤ d →
       getByNgModelValueLoop env value d t att = ⟨noMatchSelector, t, att⟩)
  ∧ (∀ (env : Nat → List Elem) (value : JsValue),
       (∀ t, ∀ e ∈ env t, candidateMatches value e = false) →
       5000 < ((getByNgModelValue env value).finish : Int) ∧
       ((getByNgModelValue env value).finish : Int) ≤ 5000 + 100)
  ∧ (∀ (env : Nat → List Elem) (value : JsValue),
       1 ≤ (getByNgModelValue env value).attempts)
  ∧ (∀ (env : Nat → TickState) (expected : JsValue) (d : Int) (t : Nat)
       (la : JsValue) (le : Option String) (att : Nat), ¬ (t : Int) ≤ d →
       (toHaveNgValueLoop env expected d t la le att).finish = t ∧
       (toHaveNgValueLoop env expected d t la le att).attempts = att)
  ∧ (∀ (env : Nat → TickState) (expected : JsValue) (timeout : Int),
       0 ≤ timeout → 1 ≤ (toHaveNgValue env expected timeout).attempts) := by
  refine ⟨?_, ?_, ?_, ?_, ?_⟩
  · intro env value d t att h
    exact getByNgModelValueLoop_expired env value d t att h
  · intro env value hm
    exact (getByNgModelValueLoop_no_sels env value 5000
      (fun t => tickSelectors_eq_nil (hm t) t) 0 0).2 (by decide)
  · intro env value
    exact getByNgModelValueLoop_attempts_lt env value 5000 0 0 (by decide)
  · intro env expected d t la le att h
    rw [toHaveNgValueLoop_expired env expected d t la le att h]
    exact ⟨rfl, rfl⟩
  · intro env expected timeout h
    exact toHaveNgValueLoop_attempts_lt env expected timeout 0 .undefinedV none 0
      (by exact_mod_cast h)

/-- Witness for C7 (amended), covering all five conjuncts on concrete
oracles and instants. -/
theorem poll_loop_timing_witness :
    getByNgModelValueLoop envEmpty (.num 1) 5000 5200 7 =
      ⟨noMatchSelector, 5200, 7⟩ ∧
    (5000 < ((getByNgModelValue envEmpty (.num 1)).finish : Int) ∧
      ((getByNgModelValue envEmpty (.num 1)).finish : Int) ≤ 5000 + 100) ∧
    1 ≤ (getByNgModelValue envEmpty (.num 1)).attempts ∧
    ((toHaveNgValueLoop envGood (.num 1) 5000 5100 .undefinedV none 3).finish
        = 5100 ∧
      (toHaveNgValueLoop envGood (.num 1) 5000 5100 .undefinedV none 3).attempts
        = 3) ∧
    1 ≤ (toHaveNgValue envGood (.num 1) 5000).attempts :=
  ⟨poll_loop_timing.1 envEmpty (.num 1) 5000 5200 7 (by decide),
   poll_loop_timing.2.1 envEmpty (.num 1)
     (fun _ e he => absurd he (List.not_mem_nil e)),
   poll_loop_timing.2.2.1 envEmpty (.num 1),
   poll_loop_timing.2.2.2.1 envGood (.num 1) 5000 5100 .undefinedV none 3
     (by decide),
   poll_loop_timing.2.2.2.2 envGood (.num 1) 5000 (by decide)⟩

/-! ## C8 -/

/-- C8 counterexample: a value IS successfully read during polling (the
`undefined` read at instants 50 and 100), yet the expiry message reports
`No value` together with the stale error recorded at instant 0, instead of
carrying the last observed value. -/
theorem timeout_message_stale_error_cx :
    toHaveNgValue envStaleError (.num 1) 100 =
      ⟨timeoutOutcome (.num 1) .undefinedV (some "BOOM"), 150, 3⟩ ∧
    getNgModelValue ((envStaleError 50).elems.head?) = .ok .undefinedV ∧
    (timeoutOutcome (.num 1) .undefinedV (some "BOOM")).message =
      "Expected ng-model to have value: 1\nReceived: No value (last error: BOOM)" := by
  refine ⟨?_, rfl, rfl⟩
  show toHaveNgValueLoop envStaleError (.num 1) 100 0 .undefinedV none 0 = _
  rw [toHaveNgValueLoop_readError envStaleError (.num 1) 100 0 .undefinedV none 0
    "BOOM" (by decide) rfl (by decide) rfl]
  rw [toHaveNgValueLoop_mismatch envStaleError (.num 1) 100 (0 + 50) .undefinedV
    (some "BOOM") (0 + 1) .undefinedV (by decide) rfl (by decide) rfl (by decide)]
  rw [toHaveNgValueLoop_mismatch envStaleError (.num 1) 100 (0 + 50 + 50)
    .undefinedV (some "BOOM") (0 + 1 + 1) .undefinedV (by decide) rfl (by decide) rfl
    (by decide)]
  exact toHaveNgValueLoop_expired envStaleError (.num 1) 100 (0 + 50 + 50 + 50)
    .undefinedV (some "BOOM") (0 + 1 + 1 + 1) (by decide)

/-- C8 (amended): on deadline expiry the matcher returns `pass = false`;
the message carries the last observed value when that value is defined, and
otherwise (no value ever read, or the last read value was `undefined`) it
reports `No value` together with the last recorded error message, or
`unknown` when none was recorded. -/
theorem timeout_outcome_diagnostic (env : Nat → TickState)
    (expected : JsValue) (d : Int) (t : Nat) (la : JsValue)
    (le : Option String) (att : Nat) (h : ¬ (t : Int) ≤ d) :
    toHaveNgValueLoop env expected d t la le att =
      ⟨timeoutOutcome expected la le, t, att⟩ ∧
    (timeoutOutcome expected la le).pass = false ∧
    (timeoutOutcome expected la le).message =
      "Expected ng-model to have value: " ++ showJson expected
        ++ "\nReceived: "
        ++ (if la.isUndefinedJs then
              "No value (last error: " ++ le.getD "unknown" ++ ")"
            else showJson la) :=
  ⟨toHaveNgValueLoop_expired env expected d t la le att h, rfl, rfl⟩

/-- Witness for C8 (amended): expiry with a defined last observed value. -/
theorem timeout_outcome_diagnostic_witness :
    toHaveNgValueLoop envGood (.num 2) 100 150 (.num 1) none 3 =
      ⟨timeoutOutcome (.num 2) (.num 1) none, 150, 3⟩ ∧
    (timeoutOutcome (.num 2) (.num 1) none).pass = false ∧
    (timeoutOutcome (.num 2) (.num 1) none).message =
      "Expected ng-model to have value: 2\nReceived: 1" := by
  have h := timeout_outcome_diagnostic envGood (.num 2) 100 150 (.num 1) none 3
    (by decide)
  refine ⟨h.1, h.2.1, ?_⟩
  rw [h.2.2]
  rfl

/-! ## C9 -/

/-- C9: `installAngularjsExtensions` is idempotent on the shared `Locator`
prototype: a second call (with any fresh closures it might create) leaves
the prototype exactly as the first call left it, because installation is
skipped whenever `getByNgModel` is already present. -/
theorem installAngularjsExtensions_idempotent (p : LocatorProto)
    (n1 n2 : Nat) :
    installAngularjsExtensions n2 (installAngularjsExtensions n1 p) =
      installAngularjsExtensions n1 p := by
  unfold installAngularjsExtensions
  by_cases h : p.getByNgModel.isSome
  · simp [h]
  · simp [h]

/-! ## C10 -/

/-- C10: `toHaveNgValue` is total at its boundary (its embedding returns an
`AssertRun` on every input): an exception raised while counting elements or
while reading the scope value inside a tick is caught, recorded as the last
error, and the loop retries; once the deadline has passed the recorded
diagnostics are folded into the final failed outcome. -/
theorem toHaveNgValue_total_catches :
    (∀ (env : Nat → TickState) (expected : JsValue) (d : Int) (t : Nat)
       (la : JsValue) (le : Option String) (att : Nat) (m : String),
       (t : Int) ≤ d → (env t).countThrows = some m →
       toHaveNgValueLoop env expected d t la le att =
         toHaveNgValueLoop env expected d (t + 50) la (some m) (att + 1))
  ∧ (∀ (env : Nat → TickState) (expected : JsValue) (d : Int) (t : Nat)
       (la : JsValue) (le : Option String) (att : Nat) (m : String),
       (t : Int) ≤ d → (env t).countThrows = none →
       ¬ 1 < (env t).elems.length →
       getNgModelValue (env t).elems.head? = .error m →
       toHaveNgValueLoop env expected d t la le att =
         toHaveNgValueLoop env expected d (t + 50) la (some m) (att + 1))
  ∧ (∀ (env : Nat → TickState) (expected : JsValue) (d : Int) (t : Nat)
       (la : JsValue) (le : Option String) (att : Nat), ¬ (t : Int) ≤ d →
       (toHaveNgValueLoop env expected d t la le att).outcome =
         timeoutOutcome expected la le ∧
       (timeoutOutcome expected la le).pass = false) := by
  refine ⟨?_, ?_, ?_⟩
  · intro env expected d t la le att m h hc
    exact toHaveNgValueLoop_countThrow env expected d t la le att m h hc
  · intro env expected d t la le att m h hc hlen hr
    exact toHaveNgValueLoop_readError env expected d t la le att m h hc hlen hr
  · intro env expected d t la le att h
    rw [toHaveNgValueLoop_expired env expected d t la le att h]
    exact ⟨rfl, rfl⟩

/-- Witness for C10, covering the three conjuncts: a rejecting `count()`
call, a rejecting read, and the outcome folded at expiry. -/
theorem toHaveNgValue_total_catches_witness :
    toHaveNgValueLoop envCountRejects (.num 1) 5000 0 .undefinedV none 0 =
      toHaveNgValueLoop envCountRejects (.num 1) 5000 (0 + 50) .undefinedV
        (some "Target closed") (0 + 1) ∧
    toHaveNgValueLoop envReadRejects (.num 1) 5000 0 .undefinedV none 0 =
      toHaveNgValueLoop envReadRejects (.num 1) 5000 (0 + 50) .undefinedV
        (some "BOOM") (0 + 1) ∧
    (toHaveNgValueLoop envGood (.num 1) (-1) 0 .undefinedV none 0).outcome =
      timeoutOutcome (.num 1) .undefinedV none :=
  ⟨toHaveNgValue_total_catches.1 envCountRejects (.num 1) 5000 0 .undefinedV none 0
     "Target closed" (by decide) rfl,
   toHaveNgValue_total_catches.2.1 envReadRejects (.num 1) 5000 0 .undefinedV none 0
     "BOOM" (by decide) rfl (by decide) rfl,
   (toHaveNgValue_total_catches.2.2 envGood (.num 1) (-1) 0 .undefinedV none 0
     (by decide)).1⟩
